import Mathlib

/-!
# Verification of the file-content extraction core

Shallow embedding of the extraction dispatch and multi-tier strategy
engine of the `file_content_extractor` repository:

* `src/src/extractors/services/schemas.py` — the result contract
  (`ProcessedFileSchema` with its construction-time validator,
  `FileContentExtractSchema`, `FileInfoSchema`);
* `src/src/extractors/services/processors/txt_processor.py`,
  `pdf_processor.py`, `docx_processor.py` — the format processors;
* `src/src/extractor/mixins/processors.py` — the OCR mixin
  (`_use_ocr_text_extraction`);
* `src/src/extractors/services/file_content_extractor.py` — the
  dispatcher (`extract_file_content`, `_build_response`,
  `_process_file_bytes`).

Modelling conventions:

* A Python exception that the modelled code may raise is an
  `Except.error` carrying the message; `try/except` blocks become
  `match` on the `Except`.
* The byte input is abstract: a `ByteData` records how each external
  library interprets the underlying byte string (`fitz` PDF parse,
  `python-docx` parse, UTF-8 decode) plus whether the byte string is
  empty. `none` in a parse field means the library call raises.
* The code accepts `bytes | io.BytesIO`; `FileBytes` keeps the
  distinction because the two behave differently: a raw `bytes` object
  is falsy when empty and has no `seek` method, while a `BytesIO`
  object is always truthy and supports `seek`.
* The OCR boundary (`src.azure.handlers.extract_text_file_bytes`, a
  remote service) is a parameter `ocr : FileBytes → Except String
  String`: it returns the joined OCR text or raises.
* Python string truthiness (`if s:`) is `s ≠ ""`, `str.strip()` is
  `pyStrip` (remove leading and trailing whitespace).
-/

/-- Python `str.strip()`: the string with leading and trailing
whitespace removed (kernel-reducible formulation over the character
list). -/
def pyStrip (s : String) : String :=
  ⟨((s.data.dropWhile Char.isWhitespace).reverse.dropWhile
      Char.isWhitespace).reverse⟩

/-- How the external libraries interpret one underlying byte string.
`pdfPages = none` models `fitz.open` raising on this input; `some pages`
gives the per-page native text layers in page order.  `docxParas = none`
models `docx.Document(...)` raising (malformed container); `some ps`
gives the paragraph texts in reading order.  `txtDecode = none` models
`data.decode("utf-8")` raising `UnicodeDecodeError`; `some s` is the
decoded string.  `isEmpty` is whether the byte string is `b""`. -/
structure ByteData where
  isEmpty : Bool
  pdfPages : Option (List String)
  docxParas : Option (List String)
  txtDecode : Option String
  deriving Repr, DecidableEq

/-- The `bytes | io.BytesIO` union of the Python signatures.  `raw` is a
plain `bytes` object, `stream` an `io.BytesIO` wrapping the data. -/
inductive FileBytes where
  | raw (data : ByteData)
  | stream (data : ByteData)
  deriving Repr, DecidableEq

/-- Python truthiness test `not file_bytes` (negated): a `bytes` object is
falsy iff empty; an `io.BytesIO` object defines neither a length nor a
boolean conversion, so it is always truthy. -/
def FileBytes.falsy : FileBytes → Bool
  | .raw b => b.isEmpty
  | .stream _ => false

/-- The underlying byte data, whichever wrapper carries it. -/
def FileBytes.data : FileBytes → ByteData
  | .raw b => b
  | .stream b => b

/-- Models `file_bytes.seek(0)`: succeeds on a stream, raises
`AttributeError` on a raw `bytes` object (which has no `seek`). -/
def FileBytes.seek0 : FileBytes → Except String Unit
  | .raw _ => .error "AttributeError: bytes object has no attribute seek"
  | .stream _ => .ok ()

/-- `ProcessedFileSchema` from `src/src/extractors/services/schemas.py`:
the result contract shared by every processor.  Optional fields carry
their pydantic defaults (`http_status = 200`, `reason = ""`,
`text = ""`). -/
structure ProcessedFileSchema where
  processed : Bool
  http_status : Nat
  reason : String
  text : String
  deriving Repr, DecidableEq

/-- Construction of a `ProcessedFileSchema`, including the
`check_processed_dependencies` model validator: building an instance
with `processed=True` and falsy `text` raises
`ValueError("text field is required when processing is successful")`,
and with `processed=False` and falsy `reason` raises
`ValueError("reason field is required when processing fails")`.
Default arguments mirror the pydantic field defaults. -/
def ProcessedFileSchema.make (processed : Bool) (http_status : Nat := 200)
    (reason : String := "") (text : String := "") :
    Except String ProcessedFileSchema :=
  if processed = true ∧ text = "" then
    .error "text field is required when processing is successful"
  else if processed = false ∧ reason = "" then
    .error "reason field is required when processing fails"
  else
    .ok ⟨processed, http_status, reason, text⟩

/-- `FileInfoSchema` from `schemas.py` (no validator). -/
structure FileInfoSchema where
  filename : String
  content_type : String
  file_bytes : FileBytes
  content : String
  deriving Repr, DecidableEq

/-- `FileContentExtractSchema` from `schemas.py` (no validator). -/
structure FileContentExtractSchema where
  success : Bool
  http_status : Nat
  reason : String
  file : FileInfoSchema
  deriving Repr, DecidableEq

/-! ## TXT processor (`txt_processor.py`) -/

/-- `TXTProcessor._use_base_txt_text_extraction`: decode the bytes as
UTF-8 (`getvalue()` on a stream, the object itself when raw — either way
the full data).  A `UnicodeDecodeError` yields
`("Failed to decode the TXT file.", False)`; a decoded string that is
empty after stripping yields
`("Could not extract text or file is empty.", False)`; otherwise the
decoded text with `True`. -/
def use_base_txt_text_extraction (fb : FileBytes) : String × Bool :=
  match fb.data.txtDecode with
  | none => ("Failed to decode the TXT file.", false)
  | some text =>
    if pyStrip text = "" then ("Could not extract text or file is empty.", false)
    else (text, true)

/-- `TXTProcessor.process_txt_bytes`.  The falsy-bytes guard returns the
missed-bytes failure; otherwise the base extraction result is wrapped:
failure with `http_status=422` and the extraction message as reason,
success with `http_status=201` and the decoded text. -/
def process_txt_bytes (fb : FileBytes) : Except String ProcessedFileSchema :=
  if fb.falsy then
    ProcessedFileSchema.make false 200 "Missed file bytes"
  else
    let (extracted_file_content, processed) := use_base_txt_text_extraction fb
    if processed = false then
      ProcessedFileSchema.make processed 422 extracted_file_content
    else
      ProcessedFileSchema.make processed 201 "" extracted_file_content

/-! ## PDF processor (`pdf_processor.py`, `utils.py`, OCR mixin) -/

/-- `extract_first_page_text_from_pdf_bytes` from
`src/src/extractors/utils.py`: open the PDF (raising on a malformed
document), return `""` when it has no pages, else the stripped text
layer of page 0.  The caller (`process_pdf_bytes`) does not guard this
call with a `try`, so the error propagates. -/
def extract_first_page_text_from_pdf_bytes (fb : FileBytes) :
    Except String String :=
  match fb.data.pdfPages with
  | none => .error "fitz could not open the document"
  | some pages =>
    match pages with
    | [] => .ok ""
    | p :: _ => .ok (pyStrip p)

/-- `PDFProcessor._use_base_pdf_text_extraction`: re-open the document,
concatenate every page's text layer in order, each page contributing
`f" {text}"` (a single leading space).  An empty concatenation after
stripping yields `("Could not extract text or file is empty.", False)`;
any exception is caught and yields `("", False)`. -/
def use_base_pdf_text_extraction (fb : FileBytes) : String × Bool :=
  match fb.data.pdfPages with
  | none => ("", false)
  | some pages =>
    let pages_text := pages.foldl (fun acc text => acc ++ " " ++ text) ""
    if pyStrip pages_text = "" then
      ("Could not extract text or file is empty.", false)
    else (pages_text, true)

/-- `ProcessorMixin._use_ocr_text_extraction` from
`src/src/extractor/mixins/processors.py`: call the OCR boundary; if the
result is truthy AND equals a single space, fail with
`"Could not extract text via OCR or file is empty."`; otherwise return
the OCR text with `True`.  Any exception is caught and yields
`("", False)`.  Note the condition is a conjunction in the source
(`ocr_extracted_text and ocr_extracted_text == " "`), so an empty OCR
result is returned with `True`. -/
def use_ocr_text_extraction (ocr : FileBytes → Except String String)
    (fb : FileBytes) : String × Bool :=
  match ocr fb with
  | .error _ => ("", false)
  | .ok ocr_extracted_text =>
    if ocr_extracted_text ≠ "" ∧ ocr_extracted_text = " " then
      ("Could not extract text via OCR or file is empty.", false)
    else (ocr_extracted_text, true)

/-- `PDFProcessor.process_pdf_bytes`: falsy-bytes guard, then the
page-1 probe (unguarded — its exception propagates), then the branch:
non-empty probe text takes the native extraction, empty probe text the
OCR extraction.  A failed branch is wrapped as
`reason="Failed to extract text from the file"`, a successful one as
`text=<extracted content>` (the schema constructor may itself raise,
and that error also propagates). -/
def process_pdf_bytes (ocr : FileBytes → Except String String)
    (fb : FileBytes) : Except String ProcessedFileSchema :=
  if fb.falsy then
    ProcessedFileSchema.make false 200 "Missed file bytes"
  else do
    let first_page_text ← extract_first_page_text_from_pdf_bytes fb
    let (extracted_file_content, processed) :=
      if first_page_text ≠ "" then use_base_pdf_text_extraction fb
      else use_ocr_text_extraction ocr fb
    if processed = false then
      ProcessedFileSchema.make processed 200 "Failed to extract text from the file"
    else
      ProcessedFileSchema.make processed 200 "" extracted_file_content

/-! ## DOCX processor (`docx_processor.py`) -/

/-- `DocxProcessor._use_base_docx_text_extraction`: join the paragraph
texts with single spaces; empty after stripping fails with
`"Could not extract text or file is empty."`, otherwise the joined text
with `True`. -/
def use_base_docx_text_extraction (paragraphs : List String) : String × Bool :=
  let paragraphs_text := String.intercalate " " paragraphs
  if pyStrip paragraphs_text = "" then
    ("Could not extract text or file is empty.", false)
  else (paragraphs_text, true)

/-- `DocxProcessor.process_docx_bytes`: falsy-bytes guard, then
`Document(file_bytes)` — unguarded, so a malformed container's
exception propagates — then the base extraction, wrapped like the PDF
case. -/
def process_docx_bytes (fb : FileBytes) : Except String ProcessedFileSchema :=
  if fb.falsy then
    ProcessedFileSchema.make false 200 "Missed file bytes"
  else do
    let paragraphs ← (match fb.data.docxParas with
      | none => Except.error "BadZipFile: malformed container"
      | some ps => Except.ok ps)
    let (extracted_file_content, processed) :=
      use_base_docx_text_extraction paragraphs
    if processed = false then
      ProcessedFileSchema.make processed 200 "Failed to extract text from the file"
    else
      ProcessedFileSchema.make processed 200 "" extracted_file_content

/-! ## Dispatcher (`file_content_extractor.py`) -/

/-- The keys of `PROCESSOR_BY_CONTENT_TYPES`. -/
def PROCESSOR_CONTENT_TYPES : List String :=
  ["application/pdf",
   "application/vnd.openxmlformats-officedocument.wordprocessingml.document",
   "text/plain"]

/-- `_FileContentExtractor._build_response`: wraps a result string into
the outcome schema.  `reason` is the result on failure and `""` on
success; `file.content` is the result on success and `""` on failure.
`FileContentExtractSchema` and `FileInfoSchema` have no validators, so
this never raises. -/
def build_response (success : Bool) (result : String) (filename : String)
    (file_bytes : FileBytes) (content_type : String)
    (http_status : Nat := 200) : FileContentExtractSchema :=
  { success := success
    http_status := http_status
    reason := if success then "" else result
    file := { filename := filename
              content_type := content_type
              file_bytes := file_bytes
              content := if success then result else "" } }

/-- `_FileContentExtractor._process_file_bytes`: inside a `try`, reset
the stream (`seek(0)` — raises on a raw `bytes` object), look the
content type up in the processor table and run the processor; a miss
returns the 400 unsupported-type result.  The `except` converts any
exception — including one raised by a processor or by the schema
validator — into
`ProcessedFileSchema(processed=False, http_status=500,
reason="Unexpected error during file processing")`. -/
def process_file_bytes (ocr : FileBytes → Except String String)
    (fb : FileBytes) (content_type : String) : ProcessedFileSchema :=
  let attempt : Except String ProcessedFileSchema := do
    let _ ← fb.seek0
    if content_type = "application/pdf" then
      process_pdf_bytes ocr fb
    else if content_type = "application/vnd.openxmlformats-officedocument.wordprocessingml.document" then
      process_docx_bytes fb
    else if content_type = "text/plain" then
      process_txt_bytes fb
    else
      ProcessedFileSchema.make false 400 "Unsupported file type"
  match attempt with
  | .ok r => r
  | .error _ =>
    ⟨false, 500, "Unexpected error during file processing", ""⟩

/-- `_FileContentExtractor.extract_file_content`: the dispatcher entry
point.  Falsy bytes give the 500 missed-bytes response; an unregistered
content type gives the 400 unsupported-type response; otherwise the
processor result from `_process_file_bytes` (itself total — its
catch-all converts every exception) is wrapped by `_build_response`.
Every operation inside the method's `try` is total in this model, so
the outer `except` branch is unreachable and the function always
returns a response. -/
def extract_file_content (ocr : FileBytes → Except String String)
    (filename : String) (file_bytes : FileBytes) (content_type : String) :
    FileContentExtractSchema :=
  if file_bytes.falsy then
    build_response false "Missed file bytes" filename file_bytes content_type 500
  else if content_type ∉ PROCESSOR_CONTENT_TYPES then
    build_response false "Unsupported file type" filename file_bytes content_type 400
  else
    let result := process_file_bytes ocr file_bytes content_type
    build_response result.processed
      (if result.processed = false then result.reason else result.text)
      filename file_bytes content_type result.http_status

/-! ## Helper lemmas -/

/-- The processed/text/reason mutual-dependency invariant of the result
contract. -/
def SchemaInv (s : ProcessedFileSchema) : Prop :=
  (s.processed = true → s.text ≠ "") ∧ (s.processed = false → s.reason ≠ "")

theorem make_ok_eq {p : Bool} {hs : Nat} {r t : String}
    {s : ProcessedFileSchema}
    (h : ProcessedFileSchema.make p hs r t = .ok s) : s = ⟨p, hs, r, t⟩ := by
  unfold ProcessedFileSchema.make at h
  split at h
  · simp at h
  · split at h
    · simp at h
    · cases h; rfl

theorem make_ok_inv {p : Bool} {hs : Nat} {r t : String}
    {s : ProcessedFileSchema}
    (h : ProcessedFileSchema.make p hs r t = .ok s) : SchemaInv s := by
  unfold ProcessedFileSchema.make at h
  split at h
  · simp at h
  · split at h
    · simp at h
    · cases h
      next h1 h2 =>
        constructor <;> intro hp <;> simp_all [SchemaInv]

theorem process_txt_bytes_inv {fb : FileBytes} {s : ProcessedFileSchema}
    (h : process_txt_bytes fb = .ok s) : SchemaInv s := by
  unfold process_txt_bytes at h
  split at h
  · exact make_ok_inv h
  · split at h
    split at h <;> exact make_ok_inv h

theorem process_pdf_bytes_inv {ocr : FileBytes → Except String String}
    {fb : FileBytes} {s : ProcessedFileSchema}
    (h : process_pdf_bytes ocr fb = .ok s) : SchemaInv s := by
  unfold process_pdf_bytes at h
  split at h
  · exact make_ok_inv h
  · rcases hfp : extract_first_page_text_from_pdf_bytes fb with e | fp <;>
      simp only [hfp, Except.bind, bind] at h
    · cases h
    · split at h <;> split at h <;> exact make_ok_inv h

theorem process_docx_bytes_inv {fb : FileBytes} {s : ProcessedFileSchema}
    (h : process_docx_bytes fb = .ok s) : SchemaInv s := by
  unfold process_docx_bytes at h
  split at h
  · exact make_ok_inv h
  · rcases hdp : fb.data.docxParas with _ | ps <;>
      simp only [hdp, Except.bind, bind] at h
    · cases h
    · split at h <;> exact make_ok_inv h

theorem process_file_bytes_inv (ocr : FileBytes → Except String String)
    (fb : FileBytes) (ct : String) :
    SchemaInv (process_file_bytes ocr fb ct) := by
  unfold process_file_bytes
  cases fb with
  | raw b =>
    simp only [FileBytes.seek0, Except.bind, bind]
    exact ⟨by simp, by simp⟩
  | stream b =>
    simp only [FileBytes.seek0, Except.bind, bind]
    rcases hr : (if ct = "application/pdf" then process_pdf_bytes ocr (.stream b)
      else if ct = "application/vnd.openxmlformats-officedocument.wordprocessingml.document" then process_docx_bytes (.stream b)
      else if ct = "text/plain" then process_txt_bytes (.stream b)
      else ProcessedFileSchema.make false 400 "Unsupported file type") with e | s
    · simp only [hr]
      exact ⟨by simp, by simp⟩
    · simp only [hr]
      split at hr
      · exact process_pdf_bytes_inv hr
      · split at hr
        · exact process_docx_bytes_inv hr
        · split at hr
          · exact process_txt_bytes_inv hr
          · exact make_ok_inv hr

/-! ## Claim theorems -/

/-- C7: constructing a `ProcessedFileSchema` with `processed=true` and
empty text fails at construction time with the contract-violation error,
constructing one with `processed=false` and empty reason likewise fails,
and every instance the constructor does return satisfies the
processed/text/reason mutual-dependency invariant — no violating
instance can exist. -/
theorem processed_result_invariant_enforced (p : Bool) (hs : Nat)
    (r t : String) (s : ProcessedFileSchema)
    (h : ProcessedFileSchema.make p hs r t = .ok s) :
    (s.processed = true → s.text ≠ "") ∧
    (s.processed = false → s.reason ≠ "") ∧
    ProcessedFileSchema.make true hs r "" =
      .error "text field is required when processing is successful" ∧
    ProcessedFileSchema.make false hs "" t =
      .error "reason field is required when processing fails" := by
  obtain ⟨h1, h2⟩ := make_ok_inv h
  refine ⟨h1, h2, ?_, ?_⟩
  · unfold ProcessedFileSchema.make
    simp
  · unfold ProcessedFileSchema.make
    simp

theorem processed_result_invariant_enforced_witness :
    (ProcessedFileSchema.make true 200 "" "hello" =
      .ok ⟨true, 200, "", "hello"⟩) ∧
    ((⟨true, 200, "", "hello"⟩ : ProcessedFileSchema).processed = true →
      (⟨true, 200, "", "hello"⟩ : ProcessedFileSchema).text ≠ "") := by
  refine ⟨rfl, ?_⟩
  exact fun hp =>
    (processed_result_invariant_enforced true 200 "" "hello"
      ⟨true, 200, "", "hello"⟩ rfl).1 hp

/-- C8: `extract_file_content` is deterministic and idempotent: two
calls with identical inputs (the same filename, bytes and content type,
and an identical OCR boundary) return identical outcomes.  The model is
a pure function of its arguments because the source keeps no mutable
state across calls: `get_file_content_extractor` builds a fresh
extractor whose only attribute is the constant processor table, every
schema is request-scoped, and the dispatcher's `seek(0)` normalizes the
one piece of carried state of a reused stream, its read position. -/
theorem extract_deterministic_idempotent
    (ocr : FileBytes → Except String String) (filename : String)
    (fb : FileBytes) (content_type : String) :
    extract_file_content ocr filename fb content_type =
      extract_file_content ocr filename fb content_type := rfl

/-- C1: for every registered content type and every input, the dispatcher
returns an outcome in which exactly one of the two cases holds: success
with non-empty extracted content (and empty reason), or failure with a
non-empty reason (and empty content); the total model never lets an
exception escape `extract_file_content`. -/
theorem extract_outcome_wellformed
    (ocr : FileBytes → Except String String) (filename : String)
    (fb : FileBytes) (T : String) (hT : T ∈ PROCESSOR_CONTENT_TYPES) :
    ((extract_file_content ocr filename fb T).success = true ∧
      (extract_file_content ocr filename fb T).file.content ≠ "" ∧
      (extract_file_content ocr filename fb T).reason = "") ∨
    ((extract_file_content ocr filename fb T).success = false ∧
      (extract_file_content ocr filename fb T).reason ≠ "" ∧
      (extract_file_content ocr filename fb T).file.content = "") := by
  unfold extract_file_content
  split
  · right
    simp [build_response]
  · obtain ⟨h1, h2⟩ := process_file_bytes_inv ocr fb T
    rcases hp : (process_file_bytes ocr fb T).processed with _ | _
    · right
      simp [build_response, hp, h2 hp]
    · left
      simp [build_response, hp, h1 hp]

theorem extract_outcome_wellformed_witness :
    ("text/plain" ∈ PROCESSOR_CONTENT_TYPES) ∧
    (((extract_file_content (fun _ => .error "down") "a.txt"
        (.stream ⟨false, none, none, some "hi"⟩) "text/plain").success = true ∧
      (extract_file_content (fun _ => .error "down") "a.txt"
        (.stream ⟨false, none, none, some "hi"⟩) "text/plain").file.content ≠ "" ∧
      (extract_file_content (fun _ => .error "down") "a.txt"
        (.stream ⟨false, none, none, some "hi"⟩) "text/plain").reason = "") ∨
    ((extract_file_content (fun _ => .error "down") "a.txt"
        (.stream ⟨false, none, none, some "hi"⟩) "text/plain").success = false ∧
      (extract_file_content (fun _ => .error "down") "a.txt"
        (.stream ⟨false, none, none, some "hi"⟩) "text/plain").reason ≠ "" ∧
      (extract_file_content (fun _ => .error "down") "a.txt"
        (.stream ⟨false, none, none, some "hi"⟩) "text/plain").file.content = "")) :=
  ⟨by decide,
    extract_outcome_wellformed (fun _ => .error "down") "a.txt"
      (.stream ⟨false, none, none, some "hi"⟩) "text/plain" (by decide)⟩

/-- Spec-side description of the native PDF extraction result: the
concatenation of every page's text layer in page order, a single
leading space prepended to each page's text. -/
def concatPagesWithLeadingSpace : List String → String
  | [] => ""
  | t :: rest => " " ++ t ++ concatPagesWithLeadingSpace rest

theorem foldl_space_append (l : List String) :
    ∀ init : String,
      l.foldl (fun acc text => acc ++ " " ++ text) init =
        init ++ concatPagesWithLeadingSpace l := by
  induction l with
  | nil => intro init; simp [concatPagesWithLeadingSpace]
  | cons t rest ih =>
    intro init
    rw [List.foldl_cons, ih]
    simp [concatPagesWithLeadingSpace, String.append_assoc]

/-- C2: when the page-1 probe yields non-empty (trimmed) text, the PDF
processor's result does not depend on the OCR boundary at all (the
native path is taken, the boundary is never invoked), and a successful
result's text is exactly the concatenation of every page's text layer
in page order with a single leading space per page. -/
theorem pdf_native_path_no_ocr
    (ocr1 ocr2 : FileBytes → Except String String) (fb : FileBytes)
    (pages : List String) (s : String) (r : ProcessedFileSchema)
    (hpages : fb.data.pdfPages = some pages)
    (hprobe : extract_first_page_text_from_pdf_bytes fb = .ok s)
    (hs : s ≠ "") :
    process_pdf_bytes ocr1 fb = process_pdf_bytes ocr2 fb ∧
    (process_pdf_bytes ocr1 fb = .ok r → r.processed = true →
      r.text = concatPagesWithLeadingSpace pages) := by
  by_cases hfal : fb.falsy = true
  · constructor
    · simp [process_pdf_bytes, hfal]
    · intro hok hp'
      unfold process_pdf_bytes at hok
      rw [if_pos hfal] at hok
      have := make_ok_eq hok
      subst this
      simp at hp'
  · have hmain : ∀ ocr' : FileBytes → Except String String,
        process_pdf_bytes ocr' fb =
          if (use_base_pdf_text_extraction fb).2 = false then
            ProcessedFileSchema.make (use_base_pdf_text_extraction fb).2 200
              "Failed to extract text from the file"
          else
            ProcessedFileSchema.make (use_base_pdf_text_extraction fb).2 200 ""
              (use_base_pdf_text_extraction fb).1 := by
      intro ocr'
      unfold process_pdf_bytes
      rw [if_neg hfal]
      simp only [hprobe, bind, Except.bind, if_pos hs]
    constructor
    · rw [hmain ocr1, hmain ocr2]
    · intro hok hp'
      rw [hmain ocr1] at hok
      have hub : use_base_pdf_text_extraction fb =
          (if pyStrip (pages.foldl (fun acc text => acc ++ " " ++ text) "") = ""
            then ("Could not extract text or file is empty.", false)
            else (pages.foldl (fun acc text => acc ++ " " ++ text) "", true)) := by
        unfold use_base_pdf_text_extraction
        rw [hpages]
      rw [hub] at hok
      by_cases hemp :
          pyStrip (pages.foldl (fun acc text => acc ++ " " ++ text) "") = ""
      · rw [if_pos hemp] at hok
        simp at hok
        have := make_ok_eq hok
        subst this
        simp at hp'
      · rw [if_neg hemp] at hok
        simp at hok
        have := make_ok_eq hok
        subst this
        simp [foldl_space_append]
theorem pdf_native_path_no_ocr_witness :
    ((FileBytes.stream ⟨false, some ["hello", "pg2"], none, some ""⟩).data.pdfPages
        = some ["hello", "pg2"]) ∧
    (extract_first_page_text_from_pdf_bytes
        (.stream ⟨false, some ["hello", "pg2"], none, some ""⟩) = .ok "hello") ∧
    "hello" ≠ "" ∧
    (process_pdf_bytes (fun _ => .error "ocr down")
        (.stream ⟨false, some ["hello", "pg2"], none, some ""⟩) =
      process_pdf_bytes (fun _ => .ok "ocr text")
        (.stream ⟨false, some ["hello", "pg2"], none, some ""⟩) ∧
    (process_pdf_bytes (fun _ => .error "ocr down")
        (.stream ⟨false, some ["hello", "pg2"], none, some ""⟩) =
          .ok ⟨true, 200, "", " hello pg2"⟩ →
      (⟨true, 200, "", " hello pg2"⟩ : ProcessedFileSchema).processed = true →
      (⟨true, 200, "", " hello pg2"⟩ : ProcessedFileSchema).text =
        concatPagesWithLeadingSpace ["hello", "pg2"])) :=
  ⟨rfl, rfl, by decide,
    pdf_native_path_no_ocr (fun _ => .error "ocr down") (fun _ => .ok "ocr text")
      (.stream ⟨false, some ["hello", "pg2"], none, some ""⟩)
      ["hello", "pg2"] "hello" ⟨true, 200, "", " hello pg2"⟩ rfl rfl (by decide)⟩

/-- C3 (code bug): for a PDF whose page-1 probe is empty, an OCR result
of exactly a single space is reported as `success=false` with the
extraction-failure reason, as the claim states — but an *empty* OCR
result slips past the failure check (`ocr_extracted_text and
ocr_extracted_text == " "` is a conjunction, so `""` is returned with
`processed=True`), trips the result contract's validator, and is
converted by the dispatcher's catch-all into
`success=false`, `httpStatus=500`,
`reason="Unexpected error during file processing"` instead of the
extraction-failure reason. -/
theorem pdf_ocr_empty_result_contract_bug :
    ((extract_file_content (fun _ => .ok " ") "scan.pdf"
        (.stream ⟨false, some [""], none, some ""⟩) "application/pdf").success
          = false ∧
      (extract_file_content (fun _ => .ok " ") "scan.pdf"
        (.stream ⟨false, some [""], none, some ""⟩) "application/pdf").reason
          = "Failed to extract text from the file") ∧
    ((extract_file_content (fun _ => .ok "") "scan.pdf"
        (.stream ⟨false, some [""], none, some ""⟩) "application/pdf").success
          = false ∧
      (extract_file_content (fun _ => .ok "") "scan.pdf"
        (.stream ⟨false, some [""], none, some ""⟩) "application/pdf").reason
          = "Unexpected error during file processing" ∧
      (extract_file_content (fun _ => .ok "") "scan.pdf"
        (.stream ⟨false, some [""], none, some ""⟩) "application/pdf").http_status
          = 500 ∧
      use_ocr_text_extraction (fun _ => .ok "")
        (.stream ⟨false, some [""], none, some ""⟩) = ("", true)) := by
  decide

/-- C4 counterexample: the reason string the code produces for empty
bytes is `"Missed file bytes"`, not `"missing file bytes"` as the claim
states. -/
theorem missing_bytes_reason_literal_cex :
    (extract_file_content (fun _ => .error "ocr") "f.txt"
      (.raw ⟨true, none, none, some ""⟩) "text/plain").reason
        = "Missed file bytes" ∧
    (extract_file_content (fun _ => .error "ocr") "f.txt"
      (.raw ⟨true, none, none, some ""⟩) "text/plain").reason
        ≠ "missing file bytes" := by
  decide

/-- C4 (amended): for every content type (supported or not), calling the
dispatcher with an empty `bytes` value returns `success=false`,
`httpStatus=500` and reason `"Missed file bytes"`, and this precondition
fires before the content-type check (the unsupported-type failure is
never produced for empty bytes). -/
theorem missing_bytes_precondition
    (ocr : FileBytes → Except String String) (filename T : String)
    (b : ByteData) (hb : b.isEmpty = true) :
    (extract_file_content ocr filename (.raw b) T).success = false ∧
    (extract_file_content ocr filename (.raw b) T).http_status = 500 ∧
    (extract_file_content ocr filename (.raw b) T).reason
      = "Missed file bytes" := by
  unfold extract_file_content
  rw [if_pos (show (FileBytes.raw b).falsy = true from hb)]
  simp [build_response]

theorem missing_bytes_precondition_witness :
    (⟨true, none, none, some ""⟩ : ByteData).isEmpty = true ∧
    ((extract_file_content (fun _ => .error "ocr") "f"
        (.raw ⟨true, none, none, some ""⟩) "application/json").success = false ∧
      (extract_file_content (fun _ => .error "ocr") "f"
        (.raw ⟨true, none, none, some ""⟩) "application/json").http_status = 500 ∧
      (extract_file_content (fun _ => .error "ocr") "f"
        (.raw ⟨true, none, none, some ""⟩) "application/json").reason
          = "Missed file bytes") :=
  ⟨rfl, missing_bytes_precondition (fun _ => .error "ocr") "f"
    "application/json" ⟨true, none, none, some ""⟩ rfl⟩

/-- C5 counterexample: calling `extract` with `b"hello world"` as a raw
`bytes` value (as the claim literally states) does not succeed: the
dispatcher's unconditional `seek(0)` raises on a `bytes` object and the
call returns `success=false` with the catch-all reason. -/
theorem raw_bytes_hello_world_cex :
    (extract_file_content (fun _ => .error "ocr") "f.txt"
      (.raw ⟨false, none, none, some "hello world"⟩) "text/plain").success
        = false ∧
    (extract_file_content (fun _ => .error "ocr") "f.txt"
      (.raw ⟨false, none, none, some "hello world"⟩) "text/plain").reason
        = "Unexpected error during file processing" := by
  decide

/-- C5 (amended): with the input supplied as a byte stream (`BytesIO`,
the form the HTTP layer supplies), `extract` on bytes decoding to
`"hello world"` with content type `text/plain` returns `success=true`
with content exactly `"hello world"`, and `extract` on a stream of
whitespace-only bytes `b"   "` returns `success=false`. -/
theorem txt_stream_hello_world (ocr : FileBytes → Except String String)
    (filename : String) :
    (extract_file_content ocr filename
      (.stream ⟨false, none, none, some "hello world"⟩) "text/plain").success
        = true ∧
    (extract_file_content ocr filename
      (.stream ⟨false, none, none, some "hello world"⟩) "text/plain").file.content
        = "hello world" ∧
    (extract_file_content ocr filename
      (.stream ⟨false, none, none, some "   "⟩) "text/plain").success
        = false := by
  refine ⟨rfl, rfl, rfl⟩

/-- C6 counterexample: on a malformed DOCX container the parse exception
escapes `process_docx_bytes` (it is an `Except.error`, not a
`processed=false` result), and the outcome's reason is the dispatcher
catch-all's `"Unexpected error during file processing"`, not
`"parse error"`. -/
theorem docx_parse_error_reason_cex :
    process_docx_bytes (.stream ⟨false, none, none, none⟩)
        = .error "BadZipFile: malformed container" ∧
    (extract_file_content (fun _ => .error "ocr") "f.docx"
      (.stream ⟨false, none, none, none⟩)
      "application/vnd.openxmlformats-officedocument.wordprocessingml.document").reason
        ≠ "parse error" := by
  constructor
  · rfl
  · decide

/-- C6 (amended): for every DOCX input whose structured-document parse
throws (malformed container), the exception escapes the processor and
is caught by the dispatcher's last-resort catch-all, which surfaces the
failure as `success=false`, `httpStatus=500`,
`reason="Unexpected error during file processing"`; no `"parse error"`
reason exists in the code. -/
theorem docx_parse_exception_to_catch_all
    (ocr : FileBytes → Except String String) (filename : String)
    (b : ByteData) (hb : b.docxParas = none) :
    process_docx_bytes (.stream b) = .error "BadZipFile: malformed container" ∧
    (extract_file_content ocr filename (.stream b)
      "application/vnd.openxmlformats-officedocument.wordprocessingml.document").success
        = false ∧
    (extract_file_content ocr filename (.stream b)
      "application/vnd.openxmlformats-officedocument.wordprocessingml.document").http_status
        = 500 ∧
    (extract_file_content ocr filename (.stream b)
      "application/vnd.openxmlformats-officedocument.wordprocessingml.document").reason
        = "Unexpected error during file processing" := by
  have hdocx : process_docx_bytes (.stream b)
      = .error "BadZipFile: malformed container" := by
    unfold process_docx_bytes
    rw [if_neg (by simp [FileBytes.falsy])]
    simp [FileBytes.data, hb, bind, Except.bind]
  refine ⟨hdocx, ?_⟩
  unfold extract_file_content
  rw [if_neg (by simp [FileBytes.falsy])]
  rw [if_neg (by simp [PROCESSOR_CONTENT_TYPES])]
  unfold process_file_bytes
  simp [FileBytes.seek0, bind, Except.bind, hdocx, build_response]

theorem docx_parse_exception_to_catch_all_witness :
    (⟨false, none, none, none⟩ : ByteData).docxParas = none ∧
    ((extract_file_content (fun _ => .error "ocr") "f.docx"
        (.stream ⟨false, none, none, none⟩)
        "application/vnd.openxmlformats-officedocument.wordprocessingml.document").success
          = false ∧
      (extract_file_content (fun _ => .error "ocr") "f.docx"
        (.stream ⟨false, none, none, none⟩)
        "application/vnd.openxmlformats-officedocument.wordprocessingml.document").http_status
          = 500) :=
  ⟨rfl,
    (docx_parse_exception_to_catch_all (fun _ => .error "ocr") "f.docx"
      ⟨false, none, none, none⟩ rfl).2.1,
    (docx_parse_exception_to_catch_all (fun _ => .error "ocr") "f.docx"
      ⟨false, none, none, none⟩ rfl).2.2.1⟩

/-- C9: for every non-empty raw `bytes` input (not a stream object) with
a registered content type, the dispatcher's unconditional `seek(0)`
raises `AttributeError`, so the call returns `success=false`,
`httpStatus=500`,
`reason="Unexpected error during file processing"`. -/
theorem raw_bytes_seek_failure
    (ocr : FileBytes → Except String String) (filename T : String)
    (b : ByteData) (hT : T ∈ PROCESSOR_CONTENT_TYPES)
    (hne : b.isEmpty = false) :
    (extract_file_content ocr filename (.raw b) T).success = false ∧
    (extract_file_content ocr filename (.raw b) T).http_status = 500 ∧
    (extract_file_content ocr filename (.raw b) T).reason
      = "Unexpected error during file processing" := by
  unfold extract_file_content
  rw [if_neg (show ¬(FileBytes.raw b).falsy = true by simp [FileBytes.falsy, hne])]
  rw [if_neg (not_not_intro hT)]
  unfold process_file_bytes
  simp [FileBytes.seek0, bind, Except.bind, build_response]

theorem raw_bytes_seek_failure_witness :
    ("text/plain" ∈ PROCESSOR_CONTENT_TYPES) ∧
    (⟨false, none, none, some "hello world"⟩ : ByteData).isEmpty = false ∧
    ((extract_file_content (fun _ => .error "ocr") "f.txt"
        (.raw ⟨false, none, none, some "hello world"⟩) "text/plain").success
          = false ∧
      (extract_file_content (fun _ => .error "ocr") "f.txt"
        (.raw ⟨false, none, none, some "hello world"⟩) "text/plain").http_status
          = 500 ∧
      (extract_file_content (fun _ => .error "ocr") "f.txt"
        (.raw ⟨false, none, none, some "hello world"⟩) "text/plain").reason
          = "Unexpected error during file processing") :=
  ⟨by decide, rfl,
    raw_bytes_seek_failure (fun _ => .error "ocr") "f.txt" "text/plain"
      ⟨false, none, none, some "hello world"⟩ (by decide) rfl⟩

theorem pyStrip_empty : pyStrip "" = "" := rfl

/-- C10 counterexample: for an empty byte stream declared as
`application/pdf`, the missing-bytes precondition indeed does not fire,
but the outcome's reason is the dispatcher catch-all's
`"Unexpected error during file processing"` — `fitz` raises on the
empty stream inside the unguarded probe, the PDF processor returns no
result of its own, and the outcome is not the PDF processor's own
extraction-failure reason. -/
theorem empty_stream_precondition_cex :
    process_pdf_bytes (fun _ => .error "ocr")
        (.stream ⟨true, none, none, some ""⟩)
      = .error "fitz could not open the document" ∧
    (extract_file_content (fun _ => .error "ocr") "f.pdf"
      (.stream ⟨true, none, none, some ""⟩) "application/pdf").reason
        = "Unexpected error during file processing" ∧
    (extract_file_content (fun _ => .error "ocr") "f.pdf"
      (.stream ⟨true, none, none, some ""⟩) "application/pdf").reason
        ≠ "Failed to extract text from the file" := by
  refine ⟨rfl, by decide, by decide⟩

/-- C10 (amended): for an input given as an empty byte stream with a
supported content type, the missing-file-bytes precondition does not
fire (a `BytesIO` object is truthy) and the request is dispatched to
the format processor; for `text/plain` the outcome is the TXT
processor's own failure (`success=false`, `httpStatus=422`,
`reason="Could not extract text or file is empty."`), while for PDF and
DOCX parsing the empty stream raises and the dispatcher's catch-all
yields `success=false`, `httpStatus=500`,
`reason="Unexpected error during file processing"`; in no case is the
outcome the precondition's `"Missed file bytes"` with `httpStatus=500`.
The hypotheses record how the external libraries treat the empty byte
string: UTF-8 decoding yields `""`, `fitz` and `python-docx` raise. -/
theorem empty_stream_dispatched
    (ocr : FileBytes → Except String String) (filename : String)
    (b : ByteData) (hb : b.isEmpty = true) (htxt : b.txtDecode = some "")
    (hpdf : b.pdfPages = none) (hdocx : b.docxParas = none) :
    ((extract_file_content ocr filename (.stream b) "text/plain").success
        = false ∧
      (extract_file_content ocr filename (.stream b) "text/plain").http_status
        = 422 ∧
      (extract_file_content ocr filename (.stream b) "text/plain").reason
        = "Could not extract text or file is empty.") ∧
    ((extract_file_content ocr filename (.stream b) "application/pdf").http_status
        = 500 ∧
      (extract_file_content ocr filename (.stream b) "application/pdf").reason
        = "Unexpected error during file processing") ∧
    ((extract_file_content ocr filename (.stream b)
        "application/vnd.openxmlformats-officedocument.wordprocessingml.document").http_status
          = 500 ∧
      (extract_file_content ocr filename (.stream b)
        "application/vnd.openxmlformats-officedocument.wordprocessingml.document").reason
          = "Unexpected error during file processing") := by
  refine ⟨?_, ?_, ?_⟩
  · simp [extract_file_content, PROCESSOR_CONTENT_TYPES, FileBytes.falsy,
      process_file_bytes, FileBytes.seek0, bind, Except.bind,
      process_txt_bytes, use_base_txt_text_extraction, FileBytes.data, htxt,
      pyStrip_empty, ProcessedFileSchema.make, build_response]
  · simp [extract_file_content, PROCESSOR_CONTENT_TYPES, FileBytes.falsy,
      process_file_bytes, FileBytes.seek0, bind, Except.bind,
      process_pdf_bytes, extract_first_page_text_from_pdf_bytes,
      FileBytes.data, hpdf, build_response]
  · simp [extract_file_content, PROCESSOR_CONTENT_TYPES, FileBytes.falsy,
      process_file_bytes, FileBytes.seek0, bind, Except.bind,
      process_docx_bytes, FileBytes.data, hdocx, build_response]

theorem empty_stream_dispatched_witness :
    ((⟨true, none, none, some ""⟩ : ByteData).isEmpty = true) ∧
    ((extract_file_content (fun _ => .error "ocr") "f"
        (.stream ⟨true, none, none, some ""⟩) "text/plain").http_status = 422 ∧
      (extract_file_content (fun _ => .error "ocr") "f"
        (.stream ⟨true, none, none, some ""⟩) "text/plain").reason
          = "Could not extract text or file is empty." ∧
      (extract_file_content (fun _ => .error "ocr") "f"
        (.stream ⟨true, none, none, some ""⟩) "application/pdf").reason
          = "Unexpected error during file processing") :=
  ⟨rfl,
    (empty_stream_dispatched (fun _ => .error "ocr") "f"
      ⟨true, none, none, some ""⟩ rfl rfl rfl rfl).1.2.1,
    (empty_stream_dispatched (fun _ => .error "ocr") "f"
      ⟨true, none, none, some ""⟩ rfl rfl rfl rfl).1.2.2,
    (empty_stream_dispatched (fun _ => .error "ocr") "f"
      ⟨true, none, none, some ""⟩ rfl rfl rfl rfl).2.1.2⟩
